import Mathlib

/-!
# AuraNova `ABaseCharacter`: dash cooldown, emotion label and traits

Shallow embedding of `Source/AuraNova/Characters/BaseCharacter.{h,cpp}`.

Modelling conventions.
* The object is a record of the members the class declares, plus the one
  engine-owned value its methods assign (`GetCharacterMovement()->MaxWalkSpeed`)
  and the `LogTemp` sink that `UE_LOG` appends to.
* C++ `float` members and `DeltaTime` hold finite values, written as rationals
  (`ℚ`); every literal of the source (`0.0f`, `2.0f`, `600.0f`, `1200.0f`, the
  trait defaults) is one.  Assignments and comparisons are exact on them.
  Infinities and NaN are outside the model.
* The class does float arithmetic in one place, `DashCooldown -= DeltaTime` in
  `HandleDashCooldown`.  `HandleDashCooldownWith fsub` takes that subtraction as
  the parameter `fsub`, so a theorem stated for every `fsub` holds whatever
  the rounding of the float subtraction; `f32Sub` is the binary32
  round-to-nearest-even subtraction on finite values.  `HandleDashCooldown` is
  the instance with exact subtraction, kept for the properties that only
  speak of flags and of the sign of the difference.
* Every method is a pure function from the record (and the method's arguments)
  to the record after the call.
* `Super::Tick`, `Super::BeginPlay`, `Super::SetupPlayerInputComponent`, the
  camera sub-objects and the rotation flags set by the constructor are engine
  state that no method of the class reads back; they are not part of the record.
-/

/-- The members of `ABaseCharacter` (BaseCharacter.h), the movement component's
`MaxWalkSpeed`, and the `LogTemp` output. -/
structure ABaseCharacter where
  ConsciousnessName : String
  Curiosity : ℚ
  Passion : ℚ
  Devotion : ℚ
  Loyalty : ℚ
  Love : ℚ
  BaseWalkSpeed : ℚ
  BaseDashSpeed : ℚ
  bIsDashing : Bool
  CurrentEmotion : String
  DashCooldown : ℚ
  bCanDash : Bool
  /-- Engine member `GetCharacterMovement()->MaxWalkSpeed`. -/
  MaxWalkSpeed : ℚ
  /-- Lines written through `UE_LOG(LogTemp, Warning, ...)`, oldest first. -/
  LogTemp : List String
deriving DecidableEq, Repr

/-- `UE_LOG(LogTemp, Warning, ...)`: append one formatted line. -/
def ABaseCharacter.UE_LOG (self : ABaseCharacter) (line : String) : ABaseCharacter :=
  { self with LogTemp := self.LogTemp ++ [line] }

/-- `ABaseCharacter::Dash` (BaseCharacter.cpp:108-120). -/
def ABaseCharacter.Dash (self : ABaseCharacter) : ABaseCharacter :=
  if self.bCanDash && !self.bIsDashing then
    let s1 := { self with bIsDashing := true }
    let s2 := { s1 with bCanDash := false }
    let s3 := { s2 with DashCooldown := 2 }
    let s4 := { s3 with MaxWalkSpeed := s3.BaseDashSpeed }
    s4.UE_LOG (s4.ConsciousnessName ++ " is dashing!")
  else
    self

/-- `ABaseCharacter::ProcessConsciousnessDecision` (BaseCharacter.cpp:122-128):
logs the decision and does nothing else. -/
def ABaseCharacter.ProcessConsciousnessDecision (self : ABaseCharacter) (Decision : String) :
    ABaseCharacter :=
  self.UE_LOG (self.ConsciousnessName ++ " received decision: " ++ Decision)

/-- `ABaseCharacter::UpdateTraitsFromConsciousness` (BaseCharacter.cpp:130-134):
the body holds two comments and no statement. -/
def ABaseCharacter.UpdateTraitsFromConsciousness (self : ABaseCharacter) (_TraitData : String) :
    ABaseCharacter :=
  self

/-- `ABaseCharacter::SetEmotionalState` (BaseCharacter.cpp:136-140). -/
def ABaseCharacter.SetEmotionalState (self : ABaseCharacter) (NewEmotion : String) :
    ABaseCharacter :=
  let s1 := { self with CurrentEmotion := NewEmotion }
  s1.UE_LOG (s1.ConsciousnessName ++ " is feeling " ++ NewEmotion)

/-- `ABaseCharacter::SendDecisionRequest` (BaseCharacter.cpp:142-147). -/
def ABaseCharacter.SendDecisionRequest (self : ABaseCharacter) : ABaseCharacter :=
  self.UE_LOG (self.ConsciousnessName ++ " requesting decision from consciousness")

/-- `ABaseCharacter::SendDialogueRequest` (BaseCharacter.cpp:149-153). -/
def ABaseCharacter.SendDialogueRequest (self : ABaseCharacter) : ABaseCharacter :=
  self.UE_LOG (self.ConsciousnessName ++ " requesting dialogue from consciousness")

/-- `ABaseCharacter::BeginPlay` (BaseCharacter.cpp:53-62).  `Name` is the value of the
engine call `GetName()`. -/
def ABaseCharacter.BeginPlay (self : ABaseCharacter) (Name : String) : ABaseCharacter :=
  let s1 := self.UE_LOG
    ("Character " ++ Name ++ " spawned with consciousness " ++ self.ConsciousnessName)
  s1.SendDecisionRequest

/-- `ABaseCharacter::UpdateAnimationState` (BaseCharacter.cpp:155-166): both branches
of the velocity test are empty.  `Speed` is `GetLastUpdateVelocity().Size()`. -/
def ABaseCharacter.UpdateAnimationState (self : ABaseCharacter) (Speed : ℚ) : ABaseCharacter :=
  if Speed > 0 then self else self

/-- `ABaseCharacter::HandleDashCooldown` (BaseCharacter.cpp:168-180), with the
subtraction done exactly.  It is the instance at exact subtraction of
`HandleDashCooldownWith` below, which has the float subtraction as a parameter. -/
def ABaseCharacter.HandleDashCooldown (self : ABaseCharacter) (DeltaTime : ℚ) : ABaseCharacter :=
  if !self.bCanDash then
    let s1 := { self with DashCooldown := self.DashCooldown - DeltaTime }
    if s1.DashCooldown ≤ 0 then
      let s2 := { s1 with bCanDash := true }
      let s3 := { s2 with bIsDashing := false }
      { s3 with MaxWalkSpeed := s3.BaseWalkSpeed }
    else
      s1
  else
    self

/-- `ABaseCharacter::Tick` (BaseCharacter.cpp:64-70), with the subtraction done
exactly.  `Speed` is the engine value read by `UpdateAnimationState`. -/
def ABaseCharacter.Tick (self : ABaseCharacter) (DeltaTime : ℚ) (Speed : ℚ) : ABaseCharacter :=
  (self.UpdateAnimationState Speed).HandleDashCooldown DeltaTime

/-- `ABaseCharacter::HandleDashCooldown` (BaseCharacter.cpp:168-180), with the float
subtraction of `DashCooldown -= DeltaTime` given by `fsub`. -/
def ABaseCharacter.HandleDashCooldownWith (fsub : ℚ → ℚ → ℚ) (self : ABaseCharacter)
    (DeltaTime : ℚ) : ABaseCharacter :=
  if !self.bCanDash then
    let s1 := { self with DashCooldown := fsub self.DashCooldown DeltaTime }
    if s1.DashCooldown ≤ 0 then
      let s2 := { s1 with bCanDash := true }
      let s3 := { s2 with bIsDashing := false }
      { s3 with MaxWalkSpeed := s3.BaseWalkSpeed }
    else
      s1
  else
    self

/-- `ABaseCharacter::Tick` (BaseCharacter.cpp:64-70), with the float subtraction given
by `fsub`. -/
def ABaseCharacter.TickWith (fsub : ℚ → ℚ → ℚ) (self : ABaseCharacter)
    (DeltaTime : ℚ) (Speed : ℚ) : ABaseCharacter :=
  (self.UpdateAnimationState Speed).HandleDashCooldownWith fsub DeltaTime

/-- `ABaseCharacter::MoveForward` (BaseCharacter.cpp:84-94): the body reads the movement
component and the controller and calls the engine function `AddMovementInput`; it
assigns no member of the class.  `bGrounded` is `IsMovingOnGround() || IsFalling()`. -/
def ABaseCharacter.MoveForward (self : ABaseCharacter) (bGrounded : Bool) (_Value : ℚ) :
    ABaseCharacter :=
  if bGrounded then self else self

/-- `ABaseCharacter::MoveRight` (BaseCharacter.cpp:96-106): as `MoveForward`, along the
other axis. -/
def ABaseCharacter.MoveRight (self : ABaseCharacter) (bGrounded : Bool) (_Value : ℚ) :
    ABaseCharacter :=
  if bGrounded then self else self

set_option linter.dupNamespace false

/-- `ABaseCharacter::ABaseCharacter` (BaseCharacter.cpp:8-51): the state the
constructor leaves. -/
def ABaseCharacter.ABaseCharacter : ABaseCharacter where
  BaseWalkSpeed := 600
  MaxWalkSpeed := 600
  BaseDashSpeed := 1200
  bIsDashing := false
  CurrentEmotion := "neutral"
  ConsciousnessName := "Cipher"
  Curiosity := 95
  Passion := 60
  Devotion := 50
  Loyalty := 75
  Love := 45
  DashCooldown := 0
  bCanDash := true
  LogTemp := []

/-! ## Operations as data

One constructor per method that can run on a constructed character, so that
"every operation" and "any interleaving" are quantifications over
`CharacterOp` and `List CharacterOp`. -/

/-- A call of one method of the class, with its arguments and the engine values
the method reads. -/
inductive CharacterOp where
  | BeginPlay (Name : String)
  | Tick (DeltaTime : ℚ) (Speed : ℚ)
  | MoveForward (bGrounded : Bool) (Value : ℚ)
  | MoveRight (bGrounded : Bool) (Value : ℚ)
  | Dash
  | ProcessConsciousnessDecision (Decision : String)
  | UpdateTraitsFromConsciousness (TraitData : String)
  | SetEmotionalState (NewEmotion : String)
  | SendDecisionRequest
  | SendDialogueRequest
  | UpdateAnimationState (Speed : ℚ)
  | HandleDashCooldown (DeltaTime : ℚ)
deriving DecidableEq, Repr

/-- Run one method call. -/
def CharacterOp.step (s : ABaseCharacter) : CharacterOp → ABaseCharacter
  | .BeginPlay Name => s.BeginPlay Name
  | .Tick DeltaTime Speed => s.Tick DeltaTime Speed
  | .MoveForward bGrounded Value => s.MoveForward bGrounded Value
  | .MoveRight bGrounded Value => s.MoveRight bGrounded Value
  | .Dash => s.Dash
  | .ProcessConsciousnessDecision Decision => s.ProcessConsciousnessDecision Decision
  | .UpdateTraitsFromConsciousness TraitData => s.UpdateTraitsFromConsciousness TraitData
  | .SetEmotionalState NewEmotion => s.SetEmotionalState NewEmotion
  | .SendDecisionRequest => s.SendDecisionRequest
  | .SendDialogueRequest => s.SendDialogueRequest
  | .UpdateAnimationState Speed => s.UpdateAnimationState Speed
  | .HandleDashCooldown DeltaTime => s.HandleDashCooldown DeltaTime

/-- Run a sequence of method calls, first call first. -/
def CharacterOp.run (s : ABaseCharacter) (ops : List CharacterOp) : ABaseCharacter :=
  ops.foldl CharacterOp.step s

/-- Whether the call is a simulation step: `Tick`, or a direct `HandleDashCooldown`. -/
def CharacterOp.isTimeStep : CharacterOp → Bool
  | .Tick _ _ => true
  | .HandleDashCooldown _ => true
  | _ => false

/-- The `DeltaTime` argument of a simulation step; the other calls take no time. -/
def CharacterOp.elapsed : CharacterOp → ℚ
  | .Tick DeltaTime _ => DeltaTime
  | .HandleDashCooldown DeltaTime => DeltaTime
  | _ => 0

/-- Total `DeltaTime` of a sequence of calls (`d1 + ... + dn`). -/
def CharacterOp.totalElapsed (ops : List CharacterOp) : ℚ :=
  (ops.map CharacterOp.elapsed).sum

/-- The constructed character after a designer has set the `EditAnywhere` property
`BaseDashSpeed` to 500 in the editor. -/
def slowDashCharacter : ABaseCharacter :=
  { ABaseCharacter.ABaseCharacter with BaseDashSpeed := 500 }

/-- The state reached from the constructed character by a sequence of calls. -/
def constructedThen (ops : List CharacterOp) : ABaseCharacter :=
  CharacterOp.run ABaseCharacter.ABaseCharacter ops

/-- A character half a second into its dash: constructed, `Dash()`, `Tick(0.5)`. -/
def midDashCharacter : ABaseCharacter :=
  ABaseCharacter.ABaseCharacter.Dash.Tick (1 / 2) 0

/-- The inductive invariant of the dash timer over the constructed character:
the speed constants are those of the constructor, and the character is either
idle (can dash, not dashing, cooldown run out, walking speed) or dashing
(cannot dash, dashing, cooldown running, dash speed). -/
def DashInv (s : ABaseCharacter) : Prop :=
  s.BaseWalkSpeed = 600 ∧ s.BaseDashSpeed = 1200 ∧
  ((s.bCanDash = true ∧ s.bIsDashing = false ∧ s.DashCooldown ≤ 0 ∧ s.MaxWalkSpeed = 600) ∨
   (s.bCanDash = false ∧ s.bIsDashing = true ∧ 0 < s.DashCooldown ∧ s.MaxWalkSpeed = 1200))

/-! ## Float subtraction as a parameter -/

/-- Run one method call, with the float subtraction given by `fsub`.  Only `Tick` and
`HandleDashCooldown` subtract. -/
def CharacterOp.stepWith (fsub : ℚ → ℚ → ℚ) (s : ABaseCharacter) :
    CharacterOp → ABaseCharacter
  | .Tick DeltaTime Speed => s.TickWith fsub DeltaTime Speed
  | .HandleDashCooldown DeltaTime => s.HandleDashCooldownWith fsub DeltaTime
  | op => op.step s

/-- Run a sequence of method calls, first call first, with the float subtraction
given by `fsub`. -/
def CharacterOp.runWith (fsub : ℚ → ℚ → ℚ) (s : ABaseCharacter) (ops : List CharacterOp) :
    ABaseCharacter :=
  ops.foldl (CharacterOp.stepWith fsub) s

/-- The state reached from the constructed character by a sequence of calls, with the
float subtraction given by `fsub`. -/
def constructedThenWith (fsub : ℚ → ℚ → ℚ) (ops : List CharacterOp) : ABaseCharacter :=
  CharacterOp.runWith fsub ABaseCharacter.ABaseCharacter ops

/-- Round a rational to the nearest integer, a tie going to the even neighbour. -/
def roundHalfEven (q : ℚ) : ℤ :=
  let f := ⌊q⌋
  if q - f < 1 / 2 then f
  else if 1 / 2 < q - f then f + 1
  else if f % 2 = 0 then f else f + 1

/-- The binary exponent `e` of the binary32 binade of `x`: `2 ^ e ≤ |x| < 2 ^ (e + 1)`,
and `-126` throughout the subnormal range. -/
def f32Exponent (x : ℚ) : ℤ :=
  max (Int.log 2 |x|) (-126)

/-- Round a rational to binary32: the nearest multiple of `2 ^ (e - 23)` (24
significant bits), ties to even.  Results beyond the largest finite float, which
the hardware turns into an infinity, are outside the model. -/
def f32Round (x : ℚ) : ℚ :=
  if x = 0 then 0
  else (roundHalfEven (x / 2 ^ (f32Exponent x - 23)) : ℚ) * 2 ^ (f32Exponent x - 23)

/-- The C++ `float` subtraction on finite values: the exact difference rounded to
binary32. -/
def f32Sub (a b : ℚ) : ℚ :=
  f32Round (a - b)

/-- The values `DashCooldown -= DeltaTime` would store one after the other, starting
from the cooldown `c`: `c - d1`, `(c - d1) - d2`, ..., each difference computed by
`fsub`. -/
def cooldownTrace (fsub : ℚ → ℚ → ℚ) (c : ℚ) : List ℚ → List ℚ
  | [] => []
  | d :: ds => fsub c d :: cooldownTrace fsub (fsub c d) ds

/-! ## Helper lemmas -/

theorem dashInv_constructed : DashInv ABaseCharacter.ABaseCharacter := by
  simp [DashInv, ABaseCharacter.ABaseCharacter]

theorem dashInv_Dash (s : ABaseCharacter) (h : DashInv s) : DashInv s.Dash := by
  obtain ⟨hw, hd, h | h⟩ := h
  · obtain ⟨h1, h2, _, _⟩ := h
    simp [DashInv, ABaseCharacter.Dash, ABaseCharacter.UE_LOG, h1, h2, hw, hd]
  · obtain ⟨h1, h2, h3, h4⟩ := h
    simp [DashInv, ABaseCharacter.Dash, h1, h2, hw, hd, h3, h4]

theorem dashInv_HandleDashCooldown (s : ABaseCharacter) (d : ℚ) (h : DashInv s) :
    DashInv (s.HandleDashCooldown d) := by
  obtain ⟨hw, hd, h | h⟩ := h
  · obtain ⟨h1, h2, h3, h4⟩ := h
    simp [DashInv, ABaseCharacter.HandleDashCooldown, h1, h2, hw, hd, h3, h4]
  · obtain ⟨h1, h2, h3, h4⟩ := h
    by_cases hc : s.DashCooldown - d ≤ 0
    · simp [DashInv, ABaseCharacter.HandleDashCooldown, h1, hw, hd, hc]
    · have hc2 : 0 < s.DashCooldown - d := lt_of_not_ge hc
      simp [DashInv, ABaseCharacter.HandleDashCooldown, h1, h2, hw, hd, hc, hc2, h4]

theorem dashInv_UE_LOG (s : ABaseCharacter) (line : String) (h : DashInv s) :
    DashInv (s.UE_LOG line) := by
  simpa [DashInv, ABaseCharacter.UE_LOG] using h

theorem dashInv_step (s : ABaseCharacter) (op : CharacterOp) (h : DashInv s) :
    DashInv (op.step s) := by
  cases op with
  | BeginPlay Name =>
    exact dashInv_UE_LOG _ _ (dashInv_UE_LOG _ _ h)
  | Tick d v =>
    have : s.UpdateAnimationState v = s := by simp [ABaseCharacter.UpdateAnimationState]
    simpa [CharacterOp.step, ABaseCharacter.Tick, this] using dashInv_HandleDashCooldown s d h
  | MoveForward g v => simpa [CharacterOp.step, ABaseCharacter.MoveForward] using h
  | MoveRight g v => simpa [CharacterOp.step, ABaseCharacter.MoveRight] using h
  | Dash => exact dashInv_Dash s h
  | ProcessConsciousnessDecision d => exact dashInv_UE_LOG _ _ h
  | UpdateTraitsFromConsciousness t =>
    simpa [CharacterOp.step, ABaseCharacter.UpdateTraitsFromConsciousness] using h
  | SetEmotionalState e =>
    simpa [CharacterOp.step, ABaseCharacter.SetEmotionalState, DashInv,
      ABaseCharacter.UE_LOG] using h
  | SendDecisionRequest => exact dashInv_UE_LOG _ _ h
  | SendDialogueRequest => exact dashInv_UE_LOG _ _ h
  | UpdateAnimationState v =>
    simpa [CharacterOp.step, ABaseCharacter.UpdateAnimationState] using h
  | HandleDashCooldown d => exact dashInv_HandleDashCooldown s d h

theorem dashInv_run (s : ABaseCharacter) (ops : List CharacterOp) (h : DashInv s) :
    DashInv (CharacterOp.run s ops) := by
  induction ops generalizing s with
  | nil => simpa [CharacterOp.run] using h
  | cons op rest ih =>
    simpa [CharacterOp.run] using ih (op.step s) (dashInv_step s op h)

theorem dashInv_reachable (ops : List CharacterOp) :
    DashInv (CharacterOp.run ABaseCharacter.ABaseCharacter ops) :=
  dashInv_run _ ops dashInv_constructed

theorem Tick_eq_HandleDashCooldown (s : ABaseCharacter) (d v : ℚ) :
    s.Tick d v = s.HandleDashCooldown d := by
  simp [ABaseCharacter.Tick, ABaseCharacter.UpdateAnimationState]

theorem run_cons (s : ABaseCharacter) (op : CharacterOp) (ops : List CharacterOp) :
    CharacterOp.run s (op :: ops) = CharacterOp.run (op.step s) ops := by
  simp [CharacterOp.run]

theorem dashInv_constructedThen (ops : List CharacterOp) : DashInv (constructedThen ops) :=
  dashInv_reachable ops

/-- The state `Dash` leaves when its guard holds. -/
theorem Dash_accepted (s : ABaseCharacter) (hcan : s.bCanDash = true)
    (hnot : s.bIsDashing = false) :
    s.Dash = { s with bIsDashing := true, bCanDash := false, DashCooldown := 2,
                      MaxWalkSpeed := s.BaseDashSpeed,
                      LogTemp := s.LogTemp ++ [s.ConsciousnessName ++ " is dashing!"] } := by
  simp [ABaseCharacter.Dash, ABaseCharacter.UE_LOG, hcan, hnot]

/-- No call writes a trait. -/
theorem step_traits (s : ABaseCharacter) (op : CharacterOp) :
    (op.step s).Curiosity = s.Curiosity ∧ (op.step s).Passion = s.Passion ∧
    (op.step s).Devotion = s.Devotion ∧ (op.step s).Loyalty = s.Loyalty ∧
    (op.step s).Love = s.Love := by
  cases op with
  | Dash =>
    simp only [CharacterOp.step, ABaseCharacter.Dash, ABaseCharacter.UE_LOG]
    split <;> simp
  | Tick d v =>
    simp only [CharacterOp.step, Tick_eq_HandleDashCooldown,
      ABaseCharacter.HandleDashCooldown]
    split
    · split <;> simp
    · simp
  | HandleDashCooldown d =>
    simp only [CharacterOp.step, ABaseCharacter.HandleDashCooldown]
    split
    · split <;> simp
    · simp
  | SetEmotionalState e =>
    simp [CharacterOp.step, ABaseCharacter.SetEmotionalState, ABaseCharacter.UE_LOG]
  | BeginPlay n =>
    simp [CharacterOp.step, ABaseCharacter.BeginPlay, ABaseCharacter.SendDecisionRequest,
      ABaseCharacter.UE_LOG]
  | MoveForward g v => simp [CharacterOp.step, ABaseCharacter.MoveForward]
  | MoveRight g v => simp [CharacterOp.step, ABaseCharacter.MoveRight]
  | ProcessConsciousnessDecision d =>
    simp [CharacterOp.step, ABaseCharacter.ProcessConsciousnessDecision, ABaseCharacter.UE_LOG]
  | UpdateTraitsFromConsciousness t =>
    simp [CharacterOp.step, ABaseCharacter.UpdateTraitsFromConsciousness]
  | SendDecisionRequest =>
    simp [CharacterOp.step, ABaseCharacter.SendDecisionRequest, ABaseCharacter.UE_LOG]
  | SendDialogueRequest =>
    simp [CharacterOp.step, ABaseCharacter.SendDialogueRequest, ABaseCharacter.UE_LOG]
  | UpdateAnimationState v => simp [CharacterOp.step, ABaseCharacter.UpdateAnimationState]

/-- No sequence of calls writes a trait. -/
theorem run_traits (ops : List CharacterOp) :
    ∀ s : ABaseCharacter,
      (CharacterOp.run s ops).Curiosity = s.Curiosity ∧
      (CharacterOp.run s ops).Passion = s.Passion ∧
      (CharacterOp.run s ops).Devotion = s.Devotion ∧
      (CharacterOp.run s ops).Loyalty = s.Loyalty ∧
      (CharacterOp.run s ops).Love = s.Love := by
  induction ops with
  | nil => intro s; simp [CharacterOp.run]
  | cons op rest ih =>
    intro s
    rw [run_cons]
    obtain ⟨a1, a2, a3, a4, a5⟩ := ih (op.step s)
    obtain ⟨b1, b2, b3, b4, b5⟩ := step_traits s op
    exact ⟨a1.trans b1, a2.trans b2, a3.trans b3, a4.trans b4, a5.trans b5⟩

/-! ### With the float subtraction as a parameter -/

theorem HandleDashCooldownWith_exact (s : ABaseCharacter) (d : ℚ) :
    s.HandleDashCooldownWith (fun a b => a - b) d = s.HandleDashCooldown d :=
  rfl

theorem TickWith_eq_HandleDashCooldownWith (fsub : ℚ → ℚ → ℚ) (s : ABaseCharacter)
    (d v : ℚ) : s.TickWith fsub d v = s.HandleDashCooldownWith fsub d := by
  simp [ABaseCharacter.TickWith, ABaseCharacter.UpdateAnimationState]

theorem dashInv_HandleDashCooldownWith (fsub : ℚ → ℚ → ℚ) (s : ABaseCharacter) (d : ℚ)
    (h : DashInv s) : DashInv (s.HandleDashCooldownWith fsub d) := by
  obtain ⟨hw, hd, h | h⟩ := h
  · obtain ⟨h1, h2, h3, h4⟩ := h
    simp [DashInv, ABaseCharacter.HandleDashCooldownWith, h1, h2, hw, hd, h3, h4]
  · obtain ⟨h1, h2, h3, h4⟩ := h
    by_cases hc : fsub s.DashCooldown d ≤ 0
    · simp [DashInv, ABaseCharacter.HandleDashCooldownWith, h1, hw, hd, hc]
    · have hc2 : 0 < fsub s.DashCooldown d := lt_of_not_ge hc
      simp [DashInv, ABaseCharacter.HandleDashCooldownWith, h1, h2, hw, hd, hc, hc2, h4]

theorem dashInv_stepWith (fsub : ℚ → ℚ → ℚ) (s : ABaseCharacter) (op : CharacterOp)
    (h : DashInv s) : DashInv (op.stepWith fsub s) := by
  cases op with
  | Tick d v =>
    simpa [CharacterOp.stepWith, TickWith_eq_HandleDashCooldownWith] using
      dashInv_HandleDashCooldownWith fsub s d h
  | HandleDashCooldown d => exact dashInv_HandleDashCooldownWith fsub s d h
  | BeginPlay n => exact dashInv_step s (.BeginPlay n) h
  | MoveForward g v => exact dashInv_step s (.MoveForward g v) h
  | MoveRight g v => exact dashInv_step s (.MoveRight g v) h
  | Dash => exact dashInv_step s .Dash h
  | ProcessConsciousnessDecision d => exact dashInv_step s (.ProcessConsciousnessDecision d) h
  | UpdateTraitsFromConsciousness x =>
    exact dashInv_step s (.UpdateTraitsFromConsciousness x) h
  | SetEmotionalState e => exact dashInv_step s (.SetEmotionalState e) h
  | SendDecisionRequest => exact dashInv_step s .SendDecisionRequest h
  | SendDialogueRequest => exact dashInv_step s .SendDialogueRequest h
  | UpdateAnimationState v => exact dashInv_step s (.UpdateAnimationState v) h

theorem runWith_cons (fsub : ℚ → ℚ → ℚ) (s : ABaseCharacter) (op : CharacterOp)
    (ops : List CharacterOp) :
    CharacterOp.runWith fsub s (op :: ops) = CharacterOp.runWith fsub (op.stepWith fsub s) ops := by
  simp [CharacterOp.runWith]

theorem dashInv_runWith (fsub : ℚ → ℚ → ℚ) (ops : List CharacterOp) :
    ∀ s : ABaseCharacter, DashInv s → DashInv (CharacterOp.runWith fsub s ops) := by
  induction ops with
  | nil => intro s h; simpa [CharacterOp.runWith] using h
  | cons op rest ih =>
    intro s h
    rw [runWith_cons]
    exact ih _ (dashInv_stepWith fsub s op h)

theorem dashInv_constructedThenWith (fsub : ℚ → ℚ → ℚ) (ops : List CharacterOp) :
    DashInv (constructedThenWith fsub ops) :=
  dashInv_runWith fsub ops _ dashInv_constructed

theorem stepWith_timeStep (fsub : ℚ → ℚ → ℚ) (s : ABaseCharacter) (op : CharacterOp)
    (h : op.isTimeStep = true) :
    op.stepWith fsub s = s.HandleDashCooldownWith fsub op.elapsed := by
  cases op <;> simp_all [CharacterOp.isTimeStep, CharacterOp.stepWith, CharacterOp.elapsed,
    TickWith_eq_HandleDashCooldownWith]

theorem totalElapsed_cons (op : CharacterOp) (ops : List CharacterOp) :
    CharacterOp.totalElapsed (op :: ops) = op.elapsed + CharacterOp.totalElapsed ops := by
  simp [CharacterOp.totalElapsed]

/-- Once `bCanDash` is set, simulation steps change nothing. -/
theorem runWith_timeSteps_idle (fsub : ℚ → ℚ → ℚ) (s : ABaseCharacter)
    (ops : List CharacterOp) (hcan : s.bCanDash = true)
    (hops : ∀ op ∈ ops, op.isTimeStep = true) :
    CharacterOp.runWith fsub s ops = s := by
  induction ops with
  | nil => simp [CharacterOp.runWith]
  | cons op rest ih =>
    have h1 : op.stepWith fsub s = s := by
      rw [stepWith_timeStep fsub s op (hops op (List.mem_cons_self _ _))]
      simp [ABaseCharacter.HandleDashCooldownWith, hcan]
    rw [runWith_cons, h1]
    exact ih (fun o ho => hops o (List.mem_cons_of_mem _ ho))

/-- The dash flags and the speed after a run of simulation steps started while the
cooldown is running: reset once a stored cooldown value is `≤ 0`, untouched
otherwise. -/
theorem runWith_timeSteps_cooling (fsub : ℚ → ℚ → ℚ) (ops : List CharacterOp) :
    ∀ s : ABaseCharacter, s.bCanDash = false →
      (∀ op ∈ ops, op.isTimeStep = true) →
      ((∃ c ∈ cooldownTrace fsub s.DashCooldown (ops.map CharacterOp.elapsed), c ≤ 0) →
        (CharacterOp.runWith fsub s ops).bCanDash = true ∧
        (CharacterOp.runWith fsub s ops).bIsDashing = false ∧
        (CharacterOp.runWith fsub s ops).MaxWalkSpeed = s.BaseWalkSpeed) ∧
      ((¬ ∃ c ∈ cooldownTrace fsub s.DashCooldown (ops.map CharacterOp.elapsed), c ≤ 0) →
        (CharacterOp.runWith fsub s ops).bCanDash = false ∧
        (CharacterOp.runWith fsub s ops).bIsDashing = s.bIsDashing ∧
        (CharacterOp.runWith fsub s ops).MaxWalkSpeed = s.MaxWalkSpeed) := by
  induction ops with
  | nil =>
    intro s hcan _
    simp [CharacterOp.runWith, cooldownTrace, hcan]
  | cons op rest ih =>
    intro s hcan hops
    have hop := hops op (List.mem_cons_self _ _)
    have hrest : ∀ o ∈ rest, o.isTimeStep = true :=
      fun o ho => hops o (List.mem_cons_of_mem _ ho)
    rw [runWith_cons, stepWith_timeStep fsub s op hop]
    simp only [List.map_cons, cooldownTrace, List.mem_cons, exists_eq_or_imp]
    by_cases hc : fsub s.DashCooldown op.elapsed ≤ 0
    · have hstep : s.HandleDashCooldownWith fsub op.elapsed =
          { s with DashCooldown := fsub s.DashCooldown op.elapsed, bCanDash := true,
                   bIsDashing := false, MaxWalkSpeed := s.BaseWalkSpeed } := by
        simp [ABaseCharacter.HandleDashCooldownWith, hcan, hc]
      rw [hstep, runWith_timeSteps_idle fsub _ rest rfl hrest]
      constructor
      · intro _
        simp
      · intro hno
        exact absurd (Or.inl hc) hno
    · have hstep : s.HandleDashCooldownWith fsub op.elapsed =
          { s with DashCooldown := fsub s.DashCooldown op.elapsed } := by
        simp [ABaseCharacter.HandleDashCooldownWith, hcan, hc]
      rw [hstep]
      have key := ih { s with DashCooldown := fsub s.DashCooldown op.elapsed } hcan hrest
      constructor
      · intro hex
        rcases hex with hex | hex
        · exact absurd hex hc
        · simpa using key.1 hex
      · intro hno
        have hno2 : ¬ ∃ c ∈ cooldownTrace fsub (fsub s.DashCooldown op.elapsed)
            (rest.map CharacterOp.elapsed), c ≤ 0 := fun hex => hno (Or.inr hex)
        simpa using key.2 hno2

/-- With exact subtraction and non-negative steps, a stored cooldown value is `≤ 0`
exactly when the steps add up to the starting cooldown or more. -/
theorem cooldownTrace_exact_crosses (ds : List ℚ) :
    ∀ c : ℚ, 0 < c → (∀ d ∈ ds, 0 ≤ d) →
      ((∃ x ∈ cooldownTrace (fun a b => a - b) c ds, x ≤ 0) ↔ c ≤ ds.sum) := by
  induction ds with
  | nil =>
    intro c hc _
    simp [cooldownTrace, not_le.mpr hc]
  | cons d rest ih =>
    intro c hc hds
    have hd : 0 ≤ d := hds d (List.mem_cons_self _ _)
    have hrest : ∀ x ∈ rest, 0 ≤ x := fun x hx => hds x (List.mem_cons_of_mem _ hx)
    have hsum : 0 ≤ rest.sum := List.sum_nonneg hrest
    simp only [cooldownTrace, List.mem_cons, exists_eq_or_imp, List.sum_cons]
    by_cases hcd : c - d ≤ 0
    · constructor
      · intro _
        linarith
      · intro _
        exact Or.inl hcd
    · have hpos : 0 < c - d := lt_of_not_ge hcd
      rw [ih (c - d) hpos hrest]
      constructor
      · intro h
        rcases h with h | h
        · exact absurd h hcd
        · linarith
      · intro h
        exact Or.inr (by linarith)

/-! ### Binary32 rounding at given values -/

theorem roundHalfEven_of_frac_lt_half (q : ℚ) (f : ℤ) (h1 : (f : ℚ) ≤ q)
    (h2 : q - f < 1 / 2) : roundHalfEven q = f := by
  have hf : ⌊q⌋ = f := by
    rw [Int.floor_eq_iff]
    constructor
    · exact h1
    · linarith
  unfold roundHalfEven
  simp only [hf]
  rw [if_pos h2]

theorem f32Exponent_of_binade (x : ℚ) (e : ℤ) (hlo : (2 : ℚ) ^ e ≤ |x|)
    (hhi : |x| < (2 : ℚ) ^ (e + 1)) (he : -126 ≤ e) : f32Exponent x = e := by
  have hpos : 0 < |x| := lt_of_lt_of_le (by positivity) hlo
  have h1 : e ≤ Int.log 2 |x| :=
    (Int.zpow_le_iff_le_log (by norm_num) hpos).mp (by exact_mod_cast hlo)
  have h2 : Int.log 2 |x| < e + 1 :=
    (Int.lt_zpow_iff_log_lt (by norm_num) hpos).mp (by exact_mod_cast hhi)
  have h3 : Int.log 2 |x| = e := by omega
  simp [f32Exponent, h3, he]

/-- Rounding down: `x` lies in the binade of exponent `e`, and less than half a unit
in the last place above `m * 2 ^ (e - 23)`. -/
theorem f32Round_of_frac_lt_half (x : ℚ) (e m : ℤ) (hlo : (2 : ℚ) ^ e ≤ |x|)
    (hhi : |x| < (2 : ℚ) ^ (e + 1)) (he : -126 ≤ e)
    (h1 : (m : ℚ) ≤ x / 2 ^ (e - 23)) (h2 : x / 2 ^ (e - 23) - m < 1 / 2) :
    f32Round x = m * 2 ^ (e - 23) := by
  have hx : x ≠ 0 := by
    intro h0
    rw [h0] at hlo
    have : (0 : ℚ) < 2 ^ e := by positivity
    simp at hlo
    linarith
  simp [f32Round, hx, f32Exponent_of_binade x e hlo hhi he,
    roundHalfEven_of_frac_lt_half _ m h1 h2]

/-- `2.0f - 0.1f` is `1.9f`: the exact difference 255013683 / 2^27 is not a float. -/
theorem f32Sub_two_tenth :
    f32Sub 2 (13421773 / 134217728) = 15938355 / 8388608 := by
  have h := f32Round_of_frac_lt_half (2 - 13421773 / 134217728) 0 15938355
    (by norm_num [abs_of_pos]) (by norm_num [abs_of_pos]) (by norm_num)
    (by norm_num) (by norm_num)
  rw [f32Sub, h]
  norm_num

theorem f32Sub_self (a : ℚ) : f32Sub a a = 0 := by
  simp [f32Sub, f32Round]

theorem f32Sub_two_half : f32Sub 2 (1 / 2) = 3 / 2 := by
  have h := f32Round_of_frac_lt_half (2 - 1 / 2) 0 12582912
    (by norm_num [abs_of_pos]) (by norm_num [abs_of_pos]) (by norm_num)
    (by norm_num) (by norm_num)
  rw [f32Sub, h]
  norm_num

theorem f32Sub_threeHalves_one : f32Sub (3 / 2) 1 = 1 / 2 := by
  have h := f32Round_of_frac_lt_half (3 / 2 - 1) (-1) 8388608
    (by norm_num [abs_of_pos]) (by norm_num [abs_of_pos]) (by norm_num)
    (by norm_num) (by norm_num)
  rw [f32Sub, h]
  norm_num

theorem f32Sub_half_one : f32Sub (1 / 2) 1 = -(1 / 2) := by
  have h := f32Round_of_frac_lt_half (1 / 2 - 1) (-1) (-8388608)
    (by norm_num [abs_of_neg]) (by norm_num [abs_of_neg]) (by norm_num)
    (by norm_num) (by norm_num)
  rw [f32Sub, h]
  norm_num

/-! ## The claims -/

/-- C1: `Dash()` is rejected while already dashing or on cooldown.  In every state in
which `bCanDash` is false or `bIsDashing` is true the call returns the state it was
given; in particular `bIsDashing`, `bCanDash`, `DashCooldown` and `MaxWalkSpeed` are
exactly as they were, so a dash pressed during the cooldown neither restarts nor
extends it. -/
theorem C1_dash_rejected (s : ABaseCharacter)
    (h : s.bCanDash = false ∨ s.bIsDashing = true) :
    s.Dash = s ∧ s.Dash.bIsDashing = s.bIsDashing ∧ s.Dash.bCanDash = s.bCanDash ∧
      s.Dash.DashCooldown = s.DashCooldown ∧ s.Dash.MaxWalkSpeed = s.MaxWalkSpeed := by
  have hs : s.Dash = s := by
    rcases h with h | h <;> simp [ABaseCharacter.Dash, h]
  simp [hs]

/-- C1 at the character half a second into its dash (cooldown 3/2): the hypothesis
holds there and a second `Dash()` changes nothing. -/
theorem C1_dash_rejected_witness :
    (midDashCharacter.bCanDash = false ∨ midDashCharacter.bIsDashing = true) ∧
    midDashCharacter.DashCooldown = 3 / 2 ∧
    (midDashCharacter.Dash = midDashCharacter ∧
      midDashCharacter.Dash.bIsDashing = midDashCharacter.bIsDashing ∧
      midDashCharacter.Dash.bCanDash = midDashCharacter.bCanDash ∧
      midDashCharacter.Dash.DashCooldown = midDashCharacter.DashCooldown ∧
      midDashCharacter.Dash.MaxWalkSpeed = midDashCharacter.MaxWalkSpeed) :=
  ⟨Or.inl (by
      norm_num [midDashCharacter, ABaseCharacter.ABaseCharacter, ABaseCharacter.Dash,
        ABaseCharacter.UE_LOG, ABaseCharacter.Tick, ABaseCharacter.UpdateAnimationState,
        ABaseCharacter.HandleDashCooldown]),
    by
      norm_num [midDashCharacter, ABaseCharacter.ABaseCharacter, ABaseCharacter.Dash,
        ABaseCharacter.UE_LOG, ABaseCharacter.Tick, ABaseCharacter.UpdateAnimationState,
        ABaseCharacter.HandleDashCooldown],
    C1_dash_rejected midDashCharacter (Or.inl (by
      norm_num [midDashCharacter, ABaseCharacter.ABaseCharacter, ABaseCharacter.Dash,
        ABaseCharacter.UE_LOG, ABaseCharacter.Tick, ABaseCharacter.UpdateAnimationState,
        ABaseCharacter.HandleDashCooldown]))⟩

/-- C2 fails on the float code: after `Dash()`, `Tick(0.1f)` stores the cooldown
`2.0f - 0.1f = 1.9f` (the exact difference is not a float), and `Tick(1.9f)` then
stores 0 and puts `MaxWalkSpeed` back to `BaseWalkSpeed = 600`, although the two
non-negative steps add up to less than 2, where the claim has `BaseDashSpeed = 1200`. -/
theorem C2_counterexample :
    (0 : ℚ) ≤ 13421773 / 134217728 ∧ (0 : ℚ) ≤ 15938355 / 8388608 ∧
    CharacterOp.totalElapsed
      [.Tick (13421773 / 134217728) 0, .Tick (15938355 / 8388608) 0] < 2 ∧
    (CharacterOp.runWith f32Sub ABaseCharacter.ABaseCharacter.Dash
      [.Tick (13421773 / 134217728) 0]).DashCooldown = 15938355 / 8388608 ∧
    (CharacterOp.runWith f32Sub ABaseCharacter.ABaseCharacter.Dash
      [.Tick (13421773 / 134217728) 0, .Tick (15938355 / 8388608) 0]).MaxWalkSpeed = 600 ∧
    (CharacterOp.runWith f32Sub ABaseCharacter.ABaseCharacter.Dash
      [.Tick (13421773 / 134217728) 0, .Tick (15938355 / 8388608) 0]).MaxWalkSpeed ≠
      ABaseCharacter.ABaseCharacter.BaseDashSpeed := by
  have e1 : (CharacterOp.runWith f32Sub ABaseCharacter.ABaseCharacter.Dash
      [.Tick (13421773 / 134217728) 0]).DashCooldown = 15938355 / 8388608 := by
    simp only [CharacterOp.runWith, List.foldl, CharacterOp.stepWith,
      TickWith_eq_HandleDashCooldownWith, ABaseCharacter.HandleDashCooldownWith,
      ABaseCharacter.Dash, ABaseCharacter.UE_LOG, ABaseCharacter.ABaseCharacter]
    simp only [Bool.and_self, Bool.not_false, Bool.not_true, ↓reduceIte, Bool.true_and]
    rw [f32Sub_two_tenth]
    norm_num
  have e2 : (CharacterOp.runWith f32Sub ABaseCharacter.ABaseCharacter.Dash
      [.Tick (13421773 / 134217728) 0, .Tick (15938355 / 8388608) 0]).MaxWalkSpeed
      = 600 := by
    simp only [CharacterOp.runWith, List.foldl, CharacterOp.stepWith,
      TickWith_eq_HandleDashCooldownWith, ABaseCharacter.HandleDashCooldownWith,
      ABaseCharacter.Dash, ABaseCharacter.UE_LOG, ABaseCharacter.ABaseCharacter]
    simp only [Bool.and_self, Bool.not_false, Bool.not_true, ↓reduceIte, Bool.true_and]
    rw [f32Sub_two_tenth]
    norm_num [f32Sub_self]
  refine ⟨by norm_num, by norm_num, ?_, e1, e2, ?_⟩
  · norm_num [CharacterOp.totalElapsed, CharacterOp.elapsed]
  · rw [e2]
    norm_num [ABaseCharacter.ABaseCharacter]

/-- C2, amended: after an accepted `Dash()`, followed by any sequence of `Tick` /
`HandleDashCooldown` calls with non-negative `DeltaTime` values and no other call,
`MaxWalkSpeed` equals `BaseDashSpeed` as long as every cooldown value the code has
stored (2.0 with the `DeltaTime` values subtracted one after the other, each
difference as the float subtraction `fsub` gives it) is above 0, and equals
`BaseWalkSpeed` once one of them is 0 or below.  Whenever these float differences are
the exact ones, that is `BaseDashSpeed` if `d1 + ... + dn < 2.0` and `BaseWalkSpeed` if
`d1 + ... + dn >= 2.0`. -/
theorem C2_speed_follows_stored_cooldown (fsub : ℚ → ℚ → ℚ) (s : ABaseCharacter)
    (ops : List CharacterOp) (hcan : s.bCanDash = true) (hnot : s.bIsDashing = false)
    (hops : ∀ op ∈ ops, op.isTimeStep = true ∧ 0 ≤ op.elapsed) :
    ((CharacterOp.runWith fsub s.Dash ops).MaxWalkSpeed =
      if ∃ c ∈ cooldownTrace fsub 2 (ops.map CharacterOp.elapsed), c ≤ 0
      then s.BaseWalkSpeed else s.BaseDashSpeed) ∧
    (cooldownTrace fsub 2 (ops.map CharacterOp.elapsed) =
        cooldownTrace (fun a b => a - b) 2 (ops.map CharacterOp.elapsed) →
      (CharacterOp.runWith fsub s.Dash ops).MaxWalkSpeed =
        if CharacterOp.totalElapsed ops < 2 then s.BaseDashSpeed else s.BaseWalkSpeed) := by
  have hd := Dash_accepted s hcan hnot
  have key := runWith_timeSteps_cooling fsub ops s.Dash (by simp [hd])
    (fun op hop => (hops op hop).1)
  have hcool : s.Dash.DashCooldown = 2 := by simp [hd]
  have hwalk : s.Dash.BaseWalkSpeed = s.BaseWalkSpeed := by simp [hd]
  have hspeed : s.Dash.MaxWalkSpeed = s.BaseDashSpeed := by simp [hd]
  rw [hcool, hwalk, hspeed] at key
  have first : (CharacterOp.runWith fsub s.Dash ops).MaxWalkSpeed =
      if ∃ c ∈ cooldownTrace fsub 2 (ops.map CharacterOp.elapsed), c ≤ 0
      then s.BaseWalkSpeed else s.BaseDashSpeed := by
    split
    · next h => exact (key.1 h).2.2
    · next h => exact (key.2 h).2.2
  refine ⟨first, ?_⟩
  intro hexact
  have hnonneg : ∀ d ∈ ops.map CharacterOp.elapsed, 0 ≤ d := by
    intro d hd
    obtain ⟨o, ho, rfl⟩ := List.mem_map.mp hd
    exact (hops o ho).2
  have hcross := cooldownTrace_exact_crosses (ops.map CharacterOp.elapsed) 2
    (by norm_num) hnonneg
  rw [first, hexact]
  by_cases hlt : CharacterOp.totalElapsed ops < 2
  · have hno : ¬ ∃ c ∈ cooldownTrace (fun a b => a - b) 2
        (ops.map CharacterOp.elapsed), c ≤ 0 := by
      rw [hcross]
      exact not_le.mpr hlt
    rw [if_neg hno, if_pos hlt]
  · have hyes : ∃ c ∈ cooldownTrace (fun a b => a - b) 2
        (ops.map CharacterOp.elapsed), c ≤ 0 := by
      rw [hcross]
      exact not_lt.mp hlt
    rw [if_pos hyes, if_neg hlt]

/-- C2 (amended) on the constructed character with binary32 subtraction: the steps
1/2, 1, 1 are subtracted exactly (stored cooldowns 3/2, 1/2, -1/2); after the first
two (total 3/2) the speed is the dash speed 1200, after all three (total 5/2) it is
the walk speed 600. -/
theorem C2_speed_follows_stored_cooldown_witness :
    cooldownTrace f32Sub 2 [1 / 2, 1, 1] = [3 / 2, 1 / 2, -(1 / 2)] ∧
    (CharacterOp.runWith f32Sub ABaseCharacter.ABaseCharacter.Dash
        [.Tick (1 / 2) 0, .HandleDashCooldown 1]).MaxWalkSpeed = 1200 ∧
    (CharacterOp.runWith f32Sub ABaseCharacter.ABaseCharacter.Dash
        [.Tick (1 / 2) 0, .HandleDashCooldown 1, .Tick 1 0]).MaxWalkSpeed = 600 := by
  have htrace : cooldownTrace f32Sub 2 [1 / 2, 1, 1] = [3 / 2, 1 / 2, -(1 / 2)] := by
    simp only [cooldownTrace]
    rw [f32Sub_two_half, f32Sub_threeHalves_one, f32Sub_half_one]
  have htrace2 : cooldownTrace f32Sub 2 [1 / 2, 1] = [3 / 2, 1 / 2] := by
    simp only [cooldownTrace]
    rw [f32Sub_two_half, f32Sub_threeHalves_one]
  refine ⟨htrace, ?_, ?_⟩
  · have h := (C2_speed_follows_stored_cooldown f32Sub ABaseCharacter.ABaseCharacter
      [.Tick (1 / 2) 0, .HandleDashCooldown 1] rfl rfl
      (by norm_num [CharacterOp.isTimeStep, CharacterOp.elapsed])).2
      (by
        simp only [List.map, CharacterOp.elapsed, htrace2]
        norm_num [cooldownTrace])
    rw [h]
    norm_num [CharacterOp.totalElapsed, CharacterOp.elapsed, ABaseCharacter.ABaseCharacter]
  · have h := (C2_speed_follows_stored_cooldown f32Sub ABaseCharacter.ABaseCharacter
      [.Tick (1 / 2) 0, .HandleDashCooldown 1, .Tick 1 0] rfl rfl
      (by norm_num [CharacterOp.isTimeStep, CharacterOp.elapsed])).2
      (by
        simp only [List.map, CharacterOp.elapsed, htrace]
        norm_num [cooldownTrace])
    rw [h]
    norm_num [CharacterOp.totalElapsed, CharacterOp.elapsed, ABaseCharacter.ABaseCharacter]

/-- C3: `bCanDash` is false while `DashCooldown > 0`, in every state reachable from the
constructed character by any sequence of calls (any interleaving of `Dash()` and
`Tick(DeltaTime)` with arbitrary `DeltaTime`, and the other methods as well). -/
theorem C3_cannot_dash_while_cooling (ops : List CharacterOp)
    (h : 0 < (constructedThen ops).DashCooldown) :
    (constructedThen ops).bCanDash = false := by
  obtain ⟨_, _, hi | hi⟩ := dashInv_constructedThen ops
  · exact absurd h (not_lt.mpr hi.2.2.1)
  · exact hi.1

/-- C3 after `Dash()` then `Tick(0.5)`: the cooldown is 3/2 and `bCanDash` is false. -/
theorem C3_cannot_dash_while_cooling_witness :
    (constructedThen [.Dash, .Tick (1 / 2) 0]).DashCooldown = 3 / 2 ∧
    (constructedThen [.Dash, .Tick (1 / 2) 0]).bCanDash = false :=
  ⟨by
      norm_num [constructedThen, CharacterOp.run, CharacterOp.step,
        ABaseCharacter.ABaseCharacter, ABaseCharacter.Dash, ABaseCharacter.UE_LOG,
        ABaseCharacter.Tick, ABaseCharacter.UpdateAnimationState,
        ABaseCharacter.HandleDashCooldown],
    C3_cannot_dash_while_cooling [.Dash, .Tick (1 / 2) 0] (by
      norm_num [constructedThen, CharacterOp.run, CharacterOp.step,
        ABaseCharacter.ABaseCharacter, ABaseCharacter.Dash, ABaseCharacter.UE_LOG,
        ABaseCharacter.Tick, ABaseCharacter.UpdateAnimationState,
        ABaseCharacter.HandleDashCooldown])⟩

/-- C4: in every state reachable from the constructed character, observed after a call
has returned, `DashCooldown <= 0` implies that `bCanDash` is true and `bIsDashing` is
false: the flags are reset in the very step in which the cooldown reaches or
crosses zero. -/
theorem C4_flags_reset_at_zero_crossing (ops : List CharacterOp)
    (h : (constructedThen ops).DashCooldown ≤ 0) :
    (constructedThen ops).bCanDash = true ∧ (constructedThen ops).bIsDashing = false := by
  obtain ⟨_, _, hi | hi⟩ := dashInv_constructedThen ops
  · exact ⟨hi.1, hi.2.1⟩
  · exact absurd hi.2.2.1 (not_lt.mpr h)

/-- C4 after `Dash()` then `Tick(3)`: the cooldown is -1 and both flags are reset. -/
theorem C4_flags_reset_at_zero_crossing_witness :
    (constructedThen [.Dash, .Tick 3 0]).DashCooldown = -1 ∧
    ((constructedThen [.Dash, .Tick 3 0]).bCanDash = true ∧
      (constructedThen [.Dash, .Tick 3 0]).bIsDashing = false) :=
  ⟨by
      norm_num [constructedThen, CharacterOp.run, CharacterOp.step,
        ABaseCharacter.ABaseCharacter, ABaseCharacter.Dash, ABaseCharacter.UE_LOG,
        ABaseCharacter.Tick, ABaseCharacter.UpdateAnimationState,
        ABaseCharacter.HandleDashCooldown],
    C4_flags_reset_at_zero_crossing [.Dash, .Tick 3 0] (by
      norm_num [constructedThen, CharacterOp.run, CharacterOp.step,
        ABaseCharacter.ABaseCharacter, ABaseCharacter.Dash, ABaseCharacter.UE_LOG,
        ABaseCharacter.Tick, ABaseCharacter.UpdateAnimationState,
        ABaseCharacter.HandleDashCooldown])⟩

/-- C5 fails as stated: on the constructed character whose `BaseDashSpeed` was edited
to 500 the guard of `Dash()` holds, and the call takes `MaxWalkSpeed` from 600 down
to 500, so the speed after the call is not strictly greater than before. -/
theorem C5_counterexample :
    slowDashCharacter.bCanDash = true ∧ slowDashCharacter.bIsDashing = false ∧
    slowDashCharacter.MaxWalkSpeed = 600 ∧ slowDashCharacter.Dash.MaxWalkSpeed = 500 ∧
    ¬ (slowDashCharacter.MaxWalkSpeed < slowDashCharacter.Dash.MaxWalkSpeed) := by
  norm_num [slowDashCharacter, ABaseCharacter.ABaseCharacter, ABaseCharacter.Dash,
    ABaseCharacter.UE_LOG]

/-- C5, amended: in every state with `bCanDash && !bIsDashing`, `Dash()` sets
`bIsDashing = true` and `bCanDash = false` (so `bIsDashing` is the negation of the new
`bCanDash`), sets `DashCooldown` to exactly 2 and sets `MaxWalkSpeed` to
`BaseDashSpeed`; the speed after the call is strictly greater than before exactly
when `MaxWalkSpeed` was below `BaseDashSpeed`, which is the case (600 before, 1200
after) in every such state reachable from the constructed character. -/
theorem C5_dash_accepted (s : ABaseCharacter)
    (hcan : s.bCanDash = true) (hnot : s.bIsDashing = false) :
    s.Dash.bIsDashing = true ∧ s.Dash.bCanDash = false ∧
    s.Dash.bIsDashing = !s.Dash.bCanDash ∧
    s.Dash.DashCooldown = 2 ∧
    s.Dash.MaxWalkSpeed = s.BaseDashSpeed ∧
    (s.MaxWalkSpeed < s.Dash.MaxWalkSpeed ↔ s.MaxWalkSpeed < s.BaseDashSpeed) ∧
    (∀ ops : List CharacterOp, s = constructedThen ops →
      s.MaxWalkSpeed = 600 ∧ s.Dash.MaxWalkSpeed = 1200 ∧
      s.MaxWalkSpeed < s.Dash.MaxWalkSpeed) := by
  have hd := Dash_accepted s hcan hnot
  refine ⟨by simp [hd], by simp [hd], by simp [hd], by simp [hd], by simp [hd],
    by simp [hd], ?_⟩
  intro ops hs
  obtain ⟨_, hdash, hi | hi⟩ := dashInv_constructedThen ops
  · rw [← hs] at hdash hi
    have h4 := hi.2.2.2
    refine ⟨h4, by simp [hd, hdash], ?_⟩
    rw [hd, h4]
    simp only [hdash]
    norm_num
  · rw [← hs] at hi
    rw [hi.1] at hcan
    exact absurd hcan (by simp)

/-- C5 (amended) on the constructed character, which is reachable by the empty
sequence of calls: the guard holds and `Dash()` raises the speed from 600 to 1200. -/
theorem C5_dash_accepted_witness :
    ABaseCharacter.ABaseCharacter.Dash.bIsDashing = true ∧
    ABaseCharacter.ABaseCharacter.Dash.bCanDash = false ∧
    ABaseCharacter.ABaseCharacter.Dash.DashCooldown = 2 ∧
    ABaseCharacter.ABaseCharacter.MaxWalkSpeed = 600 ∧
    ABaseCharacter.ABaseCharacter.Dash.MaxWalkSpeed = 1200 ∧
    ABaseCharacter.ABaseCharacter.MaxWalkSpeed <
      ABaseCharacter.ABaseCharacter.Dash.MaxWalkSpeed :=
  have h := C5_dash_accepted ABaseCharacter.ABaseCharacter rfl rfl
  have r := h.2.2.2.2.2.2 [] rfl
  ⟨h.1, h.2.1, h.2.2.2.1, r.1, r.2.1, r.2.2⟩

/-- C6: the emotion label is mutated only by its setter.  `SetEmotionalState(NewEmotion)`
leaves `CurrentEmotion` equal to `NewEmotion` for every string and changes no other
member (dash flags, cooldown, speeds, traits, `ConsciousnessName`); its only other
effect is the log line.  Every other call leaves `CurrentEmotion` unchanged. -/
theorem C6_emotion_only_by_setter (s : ABaseCharacter) (NewEmotion : String)
    (op : CharacterOp) (hop : ∀ e : String, op ≠ .SetEmotionalState e) :
    (s.SetEmotionalState NewEmotion).CurrentEmotion = NewEmotion ∧
    s.SetEmotionalState NewEmotion =
      { s with CurrentEmotion := NewEmotion,
               LogTemp := s.LogTemp ++ [s.ConsciousnessName ++ " is feeling " ++ NewEmotion] } ∧
    ((s.SetEmotionalState NewEmotion).bIsDashing = s.bIsDashing ∧
      (s.SetEmotionalState NewEmotion).bCanDash = s.bCanDash ∧
      (s.SetEmotionalState NewEmotion).DashCooldown = s.DashCooldown ∧
      (s.SetEmotionalState NewEmotion).MaxWalkSpeed = s.MaxWalkSpeed ∧
      (s.SetEmotionalState NewEmotion).BaseWalkSpeed = s.BaseWalkSpeed ∧
      (s.SetEmotionalState NewEmotion).BaseDashSpeed = s.BaseDashSpeed ∧
      (s.SetEmotionalState NewEmotion).Curiosity = s.Curiosity ∧
      (s.SetEmotionalState NewEmotion).Passion = s.Passion ∧
      (s.SetEmotionalState NewEmotion).Devotion = s.Devotion ∧
      (s.SetEmotionalState NewEmotion).Loyalty = s.Loyalty ∧
      (s.SetEmotionalState NewEmotion).Love = s.Love ∧
      (s.SetEmotionalState NewEmotion).ConsciousnessName = s.ConsciousnessName) ∧
    (op.step s).CurrentEmotion = s.CurrentEmotion := by
  refine ⟨by simp [ABaseCharacter.SetEmotionalState, ABaseCharacter.UE_LOG],
    by simp [ABaseCharacter.SetEmotionalState, ABaseCharacter.UE_LOG],
    by simp [ABaseCharacter.SetEmotionalState, ABaseCharacter.UE_LOG], ?_⟩
  cases op with
  | SetEmotionalState e => exact absurd rfl (hop e)
  | Dash =>
    simp only [CharacterOp.step, ABaseCharacter.Dash, ABaseCharacter.UE_LOG]
    split <;> rfl
  | Tick d v =>
    simp only [CharacterOp.step, Tick_eq_HandleDashCooldown,
      ABaseCharacter.HandleDashCooldown]
    split
    · split <;> rfl
    · rfl
  | HandleDashCooldown d =>
    simp only [CharacterOp.step, ABaseCharacter.HandleDashCooldown]
    split
    · split <;> rfl
    · rfl
  | BeginPlay n => rfl
  | MoveForward g v => simp [CharacterOp.step, ABaseCharacter.MoveForward]
  | MoveRight g v => simp [CharacterOp.step, ABaseCharacter.MoveRight]
  | ProcessConsciousnessDecision d => rfl
  | UpdateTraitsFromConsciousness t => rfl
  | SendDecisionRequest => rfl
  | SendDialogueRequest => rfl
  | UpdateAnimationState v => simp [CharacterOp.step, ABaseCharacter.UpdateAnimationState]

/-- C6 on the constructed character: setting "joy" stores it, and an accepted `Dash()`
leaves the label at "neutral". -/
theorem C6_emotion_only_by_setter_witness :
    (ABaseCharacter.ABaseCharacter.SetEmotionalState "joy").CurrentEmotion = "joy" ∧
    (CharacterOp.step ABaseCharacter.ABaseCharacter .Dash).CurrentEmotion = "neutral" :=
  have h := C6_emotion_only_by_setter ABaseCharacter.ABaseCharacter "joy" .Dash
    (fun _ hne => CharacterOp.noConfusion hne)
  ⟨h.1, h.2.2.2⟩

/-- C7: the five traits are set once, by the constructor (`Curiosity = 95`,
`Passion = 60`, `Devotion = 50`, `Loyalty = 75`, `Love = 45`), and never written
afterwards: every call, in every state, leaves all five unchanged,
`UpdateTraitsFromConsciousness(TraitData)` returns the state it was given for every
string, and the traits still hold the constructor values after any sequence of calls. -/
theorem C7_traits_set_once (s : ABaseCharacter) (op : CharacterOp) (TraitData : String)
    (ops : List CharacterOp) :
    (ABaseCharacter.ABaseCharacter.Curiosity = 95 ∧
      ABaseCharacter.ABaseCharacter.Passion = 60 ∧
      ABaseCharacter.ABaseCharacter.Devotion = 50 ∧
      ABaseCharacter.ABaseCharacter.Loyalty = 75 ∧
      ABaseCharacter.ABaseCharacter.Love = 45) ∧
    ((op.step s).Curiosity = s.Curiosity ∧ (op.step s).Passion = s.Passion ∧
      (op.step s).Devotion = s.Devotion ∧ (op.step s).Loyalty = s.Loyalty ∧
      (op.step s).Love = s.Love) ∧
    s.UpdateTraitsFromConsciousness TraitData = s ∧
    ((constructedThen ops).Curiosity = 95 ∧ (constructedThen ops).Passion = 60 ∧
      (constructedThen ops).Devotion = 50 ∧ (constructedThen ops).Loyalty = 75 ∧
      (constructedThen ops).Love = 45) := by
  refine ⟨by simp [ABaseCharacter.ABaseCharacter], step_traits s op, rfl, ?_⟩
  obtain ⟨a1, a2, a3, a4, a5⟩ := run_traits ops ABaseCharacter.ABaseCharacter
  unfold constructedThen
  rw [a1, a2, a3, a4, a5]
  simp [ABaseCharacter.ABaseCharacter]

/-- C8 fails as stated: on the constructed character (`bCanDash` true, cooldown 0)
`Tick(1)` leaves `DashCooldown` at 0, not at `0 - 1`. -/
theorem C8_counterexample :
    ABaseCharacter.ABaseCharacter.bCanDash = true ∧
    (ABaseCharacter.ABaseCharacter.Tick 1 0).DashCooldown = 0 ∧
    (ABaseCharacter.ABaseCharacter.Tick 1 0).DashCooldown ≠
      ABaseCharacter.ABaseCharacter.DashCooldown - 1 := by
  norm_num [ABaseCharacter.ABaseCharacter, ABaseCharacter.Tick,
    ABaseCharacter.UpdateAnimationState, ABaseCharacter.HandleDashCooldown]

/-- C8, amended: a simulation step subtracts the elapsed time from the cooldown only
while `bCanDash` is false, and what it stores is the float difference.  For every
state and every `DeltaTime`, after `Tick(DeltaTime)` the value of `DashCooldown` is
the result `fsub DashCooldown DeltaTime` of the float subtraction if `bCanDash` was
false, and its previous value if `bCanDash` was true.  The float difference need not
be the exact one: with binary32 subtraction, `Dash()` then `Tick(0.1f)` stores
`1.9f = 15938355 / 2^23`, not `2 - 0.1f = 255013683 / 2^27`. -/
theorem C8_tick_decrements_while_cooling (fsub : ℚ → ℚ → ℚ) (s : ABaseCharacter)
    (DeltaTime Speed : ℚ) :
    ((s.TickWith fsub DeltaTime Speed).DashCooldown =
      if s.bCanDash then s.DashCooldown else fsub s.DashCooldown DeltaTime) ∧
    (ABaseCharacter.ABaseCharacter.Dash.TickWith f32Sub (13421773 / 134217728) 0).DashCooldown
      = 15938355 / 8388608 ∧
    (15938355 / 8388608 : ℚ) ≠ 2 - 13421773 / 134217728 := by
  refine ⟨?_, ?_, by norm_num⟩
  · rw [TickWith_eq_HandleDashCooldownWith]
    cases hcan : s.bCanDash
    · by_cases hc : fsub s.DashCooldown DeltaTime ≤ 0 <;>
        simp [ABaseCharacter.HandleDashCooldownWith, hcan, hc]
    · simp [ABaseCharacter.HandleDashCooldownWith, hcan]
  · simp only [TickWith_eq_HandleDashCooldownWith, ABaseCharacter.HandleDashCooldownWith,
      ABaseCharacter.Dash, ABaseCharacter.UE_LOG, ABaseCharacter.ABaseCharacter]
    simp only [Bool.and_self, Bool.not_false, Bool.not_true, ↓reduceIte, Bool.true_and]
    rw [f32Sub_two_tenth]
    norm_num

/-- C9: for every state with `bCanDash` false, `HandleDashCooldown(DeltaTime)` resets
both flags and puts `MaxWalkSpeed` back to `BaseWalkSpeed` when
`DashCooldown - DeltaTime <= 0`, and leaves the two flags and `MaxWalkSpeed` unchanged
when `DashCooldown - DeltaTime > 0`. -/
theorem C9_reset_at_zero_or_below (s : ABaseCharacter) (DeltaTime : ℚ)
    (hcan : s.bCanDash = false) :
    (s.DashCooldown - DeltaTime ≤ 0 →
      (s.HandleDashCooldown DeltaTime).bCanDash = true ∧
      (s.HandleDashCooldown DeltaTime).bIsDashing = false ∧
      (s.HandleDashCooldown DeltaTime).MaxWalkSpeed = s.BaseWalkSpeed) ∧
    (0 < s.DashCooldown - DeltaTime →
      (s.HandleDashCooldown DeltaTime).bCanDash = s.bCanDash ∧
      (s.HandleDashCooldown DeltaTime).bIsDashing = s.bIsDashing ∧
      (s.HandleDashCooldown DeltaTime).MaxWalkSpeed = s.MaxWalkSpeed) := by
  constructor
  · intro hc
    simp [ABaseCharacter.HandleDashCooldown, hcan, hc]
  · intro hc
    have hc2 : ¬ (s.DashCooldown - DeltaTime ≤ 0) := not_le.mpr hc
    simp [ABaseCharacter.HandleDashCooldown, hcan, hc2]

/-- C9 on the character half a second into its dash (cooldown 3/2, dash speed 1200):
a step of 2 resets the flags and the speed, a step of 1 leaves them alone. -/
theorem C9_reset_at_zero_or_below_witness :
    midDashCharacter.bCanDash = false ∧
    ((midDashCharacter.HandleDashCooldown 2).bCanDash = true ∧
      (midDashCharacter.HandleDashCooldown 2).bIsDashing = false ∧
      (midDashCharacter.HandleDashCooldown 2).MaxWalkSpeed =
        midDashCharacter.BaseWalkSpeed) ∧
    ((midDashCharacter.HandleDashCooldown 1).bCanDash = midDashCharacter.bCanDash ∧
      (midDashCharacter.HandleDashCooldown 1).bIsDashing = midDashCharacter.bIsDashing ∧
      (midDashCharacter.HandleDashCooldown 1).MaxWalkSpeed =
        midDashCharacter.MaxWalkSpeed) := by
  have hcan : midDashCharacter.bCanDash = false := by
    norm_num [midDashCharacter, ABaseCharacter.ABaseCharacter, ABaseCharacter.Dash,
      ABaseCharacter.UE_LOG, ABaseCharacter.Tick, ABaseCharacter.UpdateAnimationState,
      ABaseCharacter.HandleDashCooldown]
  have hcool : midDashCharacter.DashCooldown = 3 / 2 := by
    norm_num [midDashCharacter, ABaseCharacter.ABaseCharacter, ABaseCharacter.Dash,
      ABaseCharacter.UE_LOG, ABaseCharacter.Tick, ABaseCharacter.UpdateAnimationState,
      ABaseCharacter.HandleDashCooldown]
  exact ⟨hcan,
    (C9_reset_at_zero_or_below midDashCharacter 2 hcan).1 (by rw [hcool]; norm_num),
    (C9_reset_at_zero_or_below midDashCharacter 1 hcan).2 (by rw [hcool]; norm_num)⟩

/-- C10: in every state reachable from the constructed character by any sequence of
calls (`Dash()`, `Tick(DeltaTime)`, the consciousness hooks and the rest), whatever
the rounding `fsub` of the float subtraction, `bIsDashing` is the negation of
`bCanDash`.  Consequently the guard of `Dash()` has the value of `bCanDash` alone, and
`Dash()` changes the state exactly when `bCanDash` is true.  There is no separate dash
duration: the character counts as dashing exactly while the cooldown is running
(`bIsDashing` holds iff `DashCooldown > 0`), and an accepted `Dash()` starts both at
once, with the cooldown at 2.0. -/
theorem C10_dashing_is_not_canDash (fsub : ℚ → ℚ → ℚ) (ops : List CharacterOp) :
    (constructedThenWith fsub ops).bIsDashing = !(constructedThenWith fsub ops).bCanDash ∧
    ((constructedThenWith fsub ops).bCanDash && !(constructedThenWith fsub ops).bIsDashing) =
      (constructedThenWith fsub ops).bCanDash ∧
    ((constructedThenWith fsub ops).Dash ≠ constructedThenWith fsub ops ↔
      (constructedThenWith fsub ops).bCanDash = true) ∧
    ((constructedThenWith fsub ops).bIsDashing = true ↔
      0 < (constructedThenWith fsub ops).DashCooldown) ∧
    (constructedThenWith fsub ops).Dash.bIsDashing = true ∧
    (constructedThenWith fsub ops).Dash.DashCooldown =
      (if (constructedThenWith fsub ops).bCanDash then 2
       else (constructedThenWith fsub ops).DashCooldown) := by
  obtain ⟨_, _, hi | hi⟩ := dashInv_constructedThenWith fsub ops
  · obtain ⟨h1, h2, h3, _⟩ := hi
    have hd := Dash_accepted _ h1 h2
    refine ⟨by simp [h1, h2], by simp [h1, h2], ?_, ?_, by simp [hd], by simp [hd, h1]⟩
    · constructor
      · intro _
        exact h1
      · intro _ heq
        have hb := congrArg ABaseCharacter.bCanDash heq
        rw [hd, h1] at hb
        simp at hb
    · simp [h2, not_lt.mpr h3]
  · obtain ⟨h1, h2, h3, _⟩ := hi
    have hd : (constructedThenWith fsub ops).Dash = constructedThenWith fsub ops := by
      simp [ABaseCharacter.Dash, h1]
    refine ⟨by simp [h1, h2], by simp [h1, h2], ?_, ?_, by rw [hd]; exact h2,
      by rw [hd]; simp [h1]⟩
    · simp [hd, h1]
    · simp [h2, h3]
